import Mathlib

/-!
Verification development for the `cpp_tools` command-line project scaffolder
(`src/main.rs`).  The program is embedded shallowly: each subcommand handler
becomes a pure function from an environment (filesystem-existence oracle and
shell-command results) to the list of observable effects it performs, in
order, together with the process exit status.  Effects are directory
creations, file writes (with full rendered content), shell invocations, and
lines printed to standard output or standard error.
-/

namespace CppTools

/-- The `FileExtensions` enum from `src/main.rs` (`Cpp` and `C`). -/
inductive FileExtensions where
  | Cpp
  | C
deriving DecidableEq

/-- The `Display` implementation for `FileExtensions`: `"cpp"` / `"c"`. -/
def FileExtensions.display : FileExtensions → String
  | .Cpp => "cpp"
  | .C => "c"

/-- Rust `char::to_ascii_lowercase`: maps `A`..`Z` to `a`..`z`, leaves
every other character unchanged. -/
def asciiToLower (c : Char) : Char :=
  if 'A' ≤ c ∧ c ≤ 'Z' then Char.ofNat (c.toNat + 32) else c

/-- Rust `str::to_ascii_lowercase`, applied characterwise. -/
def toAsciiLowercase (s : String) : String :=
  String.mk (s.data.map asciiToLower)

/-- The extension-resolution match in the `New` handler:
`match file_ext.to_ascii_lowercase().as_str() ...`; `"cpp"` and `"c"` are
the only accepted (lowered) tokens, anything else is rejected. -/
def resolveFileExtension (s : String) : Option FileExtensions :=
  let l := toAsciiLowercase s
  if l = "cpp" then some FileExtensions.Cpp
  else if l = "c" then some FileExtensions.C
  else none

/-- Observable effects of a command invocation, in program order. -/
inductive Event where
  | println (s : String)
  | eprintln (s : String)
  | createDirAll (path : String)
  | writeFile (path : String) (content : String)
  | execShell (cmd : String)
deriving DecidableEq

/-- The environment a command invocation runs against: which paths exist,
and the exit status / captured output of each shell command line
(`zsh -c <cmd>`). -/
structure Env where
  pathExists : String → Bool
  shellExit : String → Nat
  shellStdout : String → String
  shellStderr : String → String

/-- The options of the `New` subcommand. -/
structure NewArgs where
  name : String
  file_ext : String
  src_dir : String
  include_dir : String
  build_dir : String
  exec_dir : String

/-- Content written to `./<name>/.gitignore` — the fixed literal from
`src/main.rs` (not parameterized by any directory name). -/
def ignoreFileContent : String :=
  "\n# C / C++\n*.o\n*.out\n*.exe\n*.dll\n*.so\n*.dylib\n"

/-- `project_lang` argument of the CMakeLists template. -/
def projectLang : FileExtensions → String
  | .Cpp => "CXX"
  | .C => "C"

/-- `project_type` argument of the CMakeLists template. -/
def projectType : FileExtensions → String
  | .Cpp => "CXX_"
  | .C => "C_"

/-- CMakeLists template text before the interpolated project name. -/
def cmakeHead : String :=
  "\ncmake_minimum_required(VERSION 3.24)\nproject("

/-- CMakeLists template text from after `{project_lang}` up to the
interpolated include directory; a function of the variant only. -/
def cmakeMid (ext : FileExtensions) : String :=
  ")\n\n# Set compiler flags\nset(CMAKE_" ++ projectType ext ++
  "STANDARD 23)\nset(CMAKE_" ++ projectType ext ++
  "STANDARD_REQUIRED ON)\nset(CMAKE_" ++ projectType ext ++
  "EXTENSIONS OFF)\nset(CMAKE_" ++ projectType ext ++
  "FLAGS \"$\x7bCMAKE_" ++ projectType ext ++
  "FLAGS\x7d -Wall -Werror -Wextra -pedantic -pedantic-errors -g\")\n\n# Include project headers\ninclude_directories(./"

/-- CMakeLists template text between `{include_dir}` and `{src_dir}`. -/
def cmakeAfterInclude : String :=
  ")\n# Define the source files and dependencies for the executable\nset(SOURCE_FILES "

/-- CMakeLists template text between `{extension}` and `{exec_dir}`. -/
def cmakeAfterSource : String :=
  ")\n\n# Make the project root directory the working directory when we run\nset(CMAKE_RUNTIME_OUTPUT_DIRECTORY $\x7bCMAKE_CURRENT_SOURCE_DIR\x7d/"

/-- CMakeLists template text between `{exec_dir}` and the second `{name}`. -/
def cmakeAfterExec : String :=
  ")\nset(CMAKE_EXPORT_COMPILE_COMMANDS TRUE)\nadd_executable("

/-- CMakeLists template text after the second `{name}`. -/
def cmakeEnd : String :=
  " $\x7bSOURCE_FILES\x7d)\n"

/-- The full rendered `CMakeLists.txt` content, exactly as the `format!`
call in `src/main.rs` produces it. -/
def cmakeListsContent (a : NewArgs) (ext : FileExtensions) : String :=
  cmakeHead ++ a.name ++ " " ++ projectLang ext ++ cmakeMid ext ++
  a.include_dir ++ cmakeAfterInclude ++ a.src_dir ++ "/main." ++
  ext.display ++ cmakeAfterSource ++ a.exec_dir ++ cmakeAfterExec ++
  a.name ++ cmakeEnd

/-- The `{}` include argument of the starter-source template. -/
def includeLine : FileExtensions → String
  | .Cpp => "#include <iostream>"
  | .C => "#include <stdio.h>"

/-- The `{}` greeting argument of the starter-source template. -/
def greetingLine : FileExtensions → String
  | .Cpp => "std::cout << \"Hello, world!\" << std::endl;"
  | .C => "printf(\"Hello, world!\\n\");"

/-- The full rendered starter source (`main.cpp` / `main.c`) content. -/
def mainFileContent (ext : FileExtensions) : String :=
  "\n" ++ includeLine ext ++ "\n\nint main() \x7b\n    " ++
  greetingLine ext ++ "\n    return 0;\n\x7d            \n"

/-- Path passed to `fs::write` for the ignore file. -/
def gitignorePath (a : NewArgs) : String :=
  "./" ++ a.name ++ "/.gitignore"

/-- Path passed to `fs::write` for the build descriptor. -/
def cmakeListsPath (a : NewArgs) : String :=
  "./" ++ a.name ++ "/CMakeLists.txt"

/-- Path passed to `fs::write` for the starter source file. -/
def mainFilePath (a : NewArgs) (ext : FileExtensions) : String :=
  "./" ++ (a.name ++ "/" ++ a.src_dir) ++ "/main." ++ ext.display

/-- The `cmake -S ... -B ...` configure command line built by `new`. -/
def cmakeConfigureCmd (a : NewArgs) : String :=
  "cmake -S " ++ ("./" ++ a.name ++ "/") ++ " -B " ++
  ("./" ++ a.name ++ "/" ++ a.build_dir ++ "/")

/-- The `git init` command line built by `new`. -/
def gitInitCmd (a : NewArgs) : String :=
  "cd ./" ++ a.name ++ "/ && git init"

/-- The `git add` command line built by `new`. -/
def gitAddCmd (a : NewArgs) : String :=
  "cd ./" ++ a.name ++ "/ && git add ."

/-- The `git commit` command line built by `new`. -/
def gitCommitCmd (a : NewArgs) : String :=
  "cd " ++ a.name ++ " && git commit -m \"Initial commit\""

/-- One external-tool step of a multi-step command: run the command, print
its captured stdout and stderr, and continue with `rest` only when the
exit status is zero, otherwise print the failure message and stop. -/
def shellStep (env : Env) (cmd failMsg : String) (rest : List Event) :
    List Event :=
  Event.execShell cmd ::
  Event.println (env.shellStdout cmd) ::
  Event.println (env.shellStderr cmd) ::
  (if env.shellExit cmd ≠ 0 then [Event.println failMsg] else rest)

/-- The `Commands::New` handler of `src/main.rs`: effect trace and process
exit status.  All modelled paths end with the process returning from
`main`, hence exit status 0. -/
def runNew (env : Env) (a : NewArgs) : List Event × Nat :=
  if env.pathExists a.name then
    ([Event.println "Error: Project already exists"], 0)
  else
    match resolveFileExtension a.file_ext with
    | none => ([Event.println "Error: Invalid file extension"], 0)
    | some ext =>
      ([Event.println ("\nCreating new project: " ++ a.name ++ "\n"),
        Event.println "    Creating directories...",
        Event.println ("        src_dir: " ++ a.src_dir),
        Event.println ("        include_dir: " ++ a.include_dir),
        Event.println ("        build_dir: " ++ a.build_dir),
        Event.println ("        exec_dir: " ++ a.exec_dir),
        Event.createDirAll (a.name ++ "/" ++ a.src_dir),
        Event.createDirAll (a.name ++ "/" ++ a.include_dir),
        Event.createDirAll (a.name ++ "/" ++ a.build_dir),
        Event.createDirAll (a.name ++ "/" ++ a.exec_dir),
        Event.println "    Creating files...",
        Event.println "        .gitignore...",
        Event.writeFile (gitignorePath a) ignoreFileContent,
        Event.println "        CMakeLists.txt...",
        Event.writeFile (cmakeListsPath a) (cmakeListsContent a ext),
        Event.println ("        main." ++ ext.display ++ "..."),
        Event.writeFile (mainFilePath a ext) (mainFileContent ext),
        Event.println "    Initializing cmake..."] ++
       shellStep env (cmakeConfigureCmd a) "Error: Failed to initialize cmake"
         (Event.println "    Initializing git..." ::
          shellStep env (gitInitCmd a) "Error: Failed to initialize git"
            (Event.println "    Adding files to git..." ::
             shellStep env (gitAddCmd a) "Error: Failed to add files to git"
               (Event.println "    Committing files to git..." ::
                shellStep env (gitCommitCmd a)
                  "Error: Failed to commit files to git"
                  [Event.println "Project created successfully!"]))), 0)

/-- The paths of all `create_dir_all` calls in a trace, in order. -/
def createdDirs (tr : List Event) : List String :=
  tr.filterMap fun e =>
    match e with
    | Event.createDirAll p => some p
    | _ => none

/-- The `(path, content)` pairs of all `fs::write` calls in a trace. -/
def writtenFiles (tr : List Event) : List (String × String) :=
  tr.filterMap fun e =>
    match e with
    | Event.writeFile p c => some (p, c)
    | _ => none

/-- The command lines of all shell invocations in a trace, in order. -/
def shellCmds (tr : List Event) : List String :=
  tr.filterMap fun e =>
    match e with
    | Event.execShell c => some c
    | _ => none

/-- The lines printed to the error stream in a trace. -/
def errLines (tr : List Event) : List String :=
  tr.filterMap fun e =>
    match e with
    | Event.eprintln s => some s
    | _ => none

/-- The options of the `Run` subcommand. -/
structure RunArgs where
  build_dir : String
  runtime_dir : String
  exec_name : Option String
  args : Option (List String)

/-- Rust `Vec::join(" ")` on the trailing `--args` list. -/
def joinArgs : List String → String
  | [] => ""
  | [a] => a
  | a :: rest => a ++ " " ++ joinArgs rest

/-- `args.map(|args| args.join(" ")).unwrap_or("".to_string())` from the
`Run` handler. -/
def joinedArgs : Option (List String) → String
  | some l => joinArgs l
  | none => ""

/-- The final segment of a path after the last `/` separator. -/
def lastSegment (s : String) : String :=
  String.mk ((s.data.reverse.takeWhile fun c => c ≠ '/').reverse)

/-- Modelled from the spec: the external `basename` tool (invoked by the
`Run` handler as `zsh -c "basename $(pwd)"`, an out-of-scope collaborator
whose behaviour the repository does not contain) writes the final
path-separator-delimited segment of the working directory to its standard
output, followed by a newline. -/
def basenameStdout (cwd : String) : String :=
  lastSegment cwd ++ "\n"

/-- The executable-name match of the `Run` handler: the explicit
`--exec-name` when given, otherwise the raw captured standard output of
`basename $(pwd)`, each output byte turned into a character. -/
def derivedExecName (env : Env) (exec_name : Option String) : String :=
  match exec_name with
  | some n => n
  | none => env.shellStdout "basename $(pwd)"

/-- The `cd {exec_dir} && ./{exec_name} {exec_args}` command line the
`Run` handler passes to the shell. -/
def runShellLine (runtime_dir ename eargs : String) : String :=
  "cd " ++ runtime_dir ++ " && ./" ++ ename ++ " " ++ eargs

/-- The `Commands::Run` handler of `src/main.rs`: effect trace and process
exit status. -/
def runRun (env : Env) (r : RunArgs) : List Event × Nat :=
  (Event.println "\nBuilding project...\n" ::
   shellStep env ("cmake --build " ++ r.build_dir)
     "Error: Failed to build project"
     (Event.println "\nRunning project...\n" ::
      Event.execShell
        (runShellLine r.runtime_dir (derivedExecName env r.exec_name)
          (joinedArgs r.args)) ::
      Event.println
        (env.shellStdout
          (runShellLine r.runtime_dir (derivedExecName env r.exec_name)
            (joinedArgs r.args))) ::
      [Event.println
        (env.shellStderr
          (runShellLine r.runtime_dir (derivedExecName env r.exec_name)
            (joinedArgs r.args)))]), 0)

/-- Default-flag arguments of `new --name demo` (`file_ext` defaults to
`cpp`, directories to `src`/`include`/`build`/`bin`). -/
def demoCppArgs : NewArgs :=
  { name := "demo", file_ext := "cpp", src_dir := "src",
    include_dir := "include", build_dir := "build", exec_dir := "bin" }

/-- `new --name demo --file-ext c` with default directories. -/
def demoCArgs : NewArgs :=
  { name := "demo", file_ext := "c", src_dir := "src",
    include_dir := "include", build_dir := "build", exec_dir := "bin" }

/-- An environment where no path exists and every external tool succeeds
with empty output. -/
def envOk : Env :=
  { pathExists := fun _ => false, shellExit := fun _ => 0,
    shellStdout := fun _ => "", shellStderr := fun _ => "" }

/-- An environment where every path already exists. -/
def envTaken : Env :=
  { pathExists := fun _ => true, shellExit := fun _ => 0,
    shellStdout := fun _ => "", shellStderr := fun _ => "" }

/-- An environment where the `cmake` configure step of `new --name demo`
exits with status 1 and everything else succeeds. -/
def envCmakeFail : Env :=
  { pathExists := fun _ => false,
    shellExit := fun c => if c = cmakeConfigureCmd demoCppArgs then 1 else 0,
    shellStdout := fun _ => "", shellStderr := fun _ => "" }

/-- An environment for a `run` invocation whose working directory is
`/tmp/demo`: the `basename $(pwd)` probe returns what the external
`basename` tool prints there. -/
def envTmpDemo : Env :=
  { pathExists := fun _ => false, shellExit := fun _ => 0,
    shellStdout := fun c =>
      if c = "basename $(pwd)" then basenameStdout "/tmp/demo" else "",
    shellStderr := fun _ => "" }

/-- `new --name demo --file-ext C` (uppercase token) with default
directories. -/
def demoCUpperArgs : NewArgs :=
  { name := "demo", file_ext := "C", src_dir := "src",
    include_dir := "include", build_dir := "build", exec_dir := "bin" }

/-- `joinArgs` carried out on the character lists underneath the argument
strings; used to analyse how the `Run` handler's space-joining treats
argument boundaries. -/
def charJoin : List (List Char) → List Char
  | [] => []
  | [a] => a
  | a :: rest => a ++ ' ' :: charJoin rest

/-- Default-flag arguments of a bare `run` invocation. -/
def runDemoArgs : RunArgs :=
  { build_dir := "build", runtime_dir := "bin", exec_name := none,
    args := none }

/-!  Shared helper lemmas. -/

/-- A needle contained in one chunk of a concatenation is contained in the
whole. -/
theorem sub_of_chunk {n m x y z : List Char} (hz : z = x ++ m ++ y)
    (h : n <:+: m) : n <:+: z := by
  subst hz
  exact h.trans ⟨x, y, rfl⟩

/-- Every shell command recorded in a trace appears in `shellCmds`. -/
theorem mem_shellCmds {c : String} {tr : List Event}
    (h : Event.execShell c ∈ tr) : c ∈ shellCmds tr := by
  simp only [shellCmds, List.mem_filterMap]
  exact ⟨Event.execShell c, h, rfl⟩

/-- The `git init` command line is never the `cmake` configure command
line, whatever the project name and build directory. -/
theorem gitInit_ne_cmake (a : NewArgs) :
    gitInitCmd a ≠ cmakeConfigureCmd a := by
  intro h
  have h2 := congrArg String.data h
  simp [gitInitCmd, cmakeConfigureCmd, String.data_append] at h2

/-- The `git add` command line is never the `cmake` configure command
line. -/
theorem gitAdd_ne_cmake (a : NewArgs) :
    gitAddCmd a ≠ cmakeConfigureCmd a := by
  intro h
  have h2 := congrArg String.data h
  simp [gitAddCmd, cmakeConfigureCmd, String.data_append] at h2

/-- The `git commit` command line is never the `cmake` configure command
line. -/
theorem gitCommit_ne_cmake (a : NewArgs) :
    gitCommitCmd a ≠ cmakeConfigureCmd a := by
  intro h
  have h2 := congrArg String.data h
  simp [gitCommitCmd, cmakeConfigureCmd, String.data_append] at h2

/-!  Claim theorems. -/

/-- Claim C3: a `new` invocation whose target path already exists reports
`Error: Project already exists` and performs no directory creation, no
file write and no shell invocation; the process outcome is the modelled
exit status 0. -/
theorem new_existing_project_untouched (env : Env) (a : NewArgs)
    (h : env.pathExists a.name = true) :
    (runNew env a).1 = [Event.println "Error: Project already exists"] ∧
    createdDirs (runNew env a).1 = [] ∧
    writtenFiles (runNew env a).1 = [] ∧
    shellCmds (runNew env a).1 = [] ∧
    (runNew env a).2 = 0 := by
  simp [runNew, h, createdDirs, writtenFiles, shellCmds]

/-- Witness for C3 at the always-exists environment and default `demo`
arguments. -/
theorem new_existing_project_untouched_w :
    envTaken.pathExists demoCppArgs.name = true ∧
    (runNew envTaken demoCppArgs).1 =
      [Event.println "Error: Project already exists"] :=
  ⟨by decide,
   (new_existing_project_untouched envTaken demoCppArgs (by decide)).1⟩

/-- Claim C10: when the target path already exists and the extension token
is also unsupported, `new` reports the already-exists error, not the
invalid-extension error: the exists check runs first. -/
theorem new_exists_check_first (env : Env) (a : NewArgs)
    (h1 : env.pathExists a.name = true)
    (_h2 : resolveFileExtension a.file_ext = none) :
    (runNew env a).1 = [Event.println "Error: Project already exists"] ∧
    Event.println "Error: Invalid file extension" ∉ (runNew env a).1 := by
  refine ⟨by simp [runNew, h1], ?_⟩
  simp [runNew, h1]

/-- Witness for C10: path `demo` exists and token `rs` is unsupported. -/
theorem new_exists_check_first_w :
    envTaken.pathExists "demo" = true ∧
    resolveFileExtension "rs" = none ∧
    (runNew envTaken
      { demoCppArgs with file_ext := "rs" }).1 =
      [Event.println "Error: Project already exists"] :=
  ⟨by decide, by decide,
   (new_exists_check_first envTaken { demoCppArgs with file_ext := "rs" }
     (by decide) (by decide)).1⟩

/-- Claim C2: extension resolution lowercases ASCII and accepts exactly
`cpp` and `c`; each of `CPP`, `cpp`, `C`, `c` resolves to its variant, and
when resolution fails the `new` invocation creates no directory, writes no
file, runs no shell command, and (when the path check passes) its whole
observable behaviour is the single rejection message. -/
theorem resolve_case_insensitive_reject_pure :
    resolveFileExtension "CPP" = some FileExtensions.Cpp ∧
    resolveFileExtension "cpp" = some FileExtensions.Cpp ∧
    resolveFileExtension "C" = some FileExtensions.C ∧
    resolveFileExtension "c" = some FileExtensions.C ∧
    ∀ (env : Env) (a : NewArgs), resolveFileExtension a.file_ext = none →
      createdDirs (runNew env a).1 = [] ∧
      writtenFiles (runNew env a).1 = [] ∧
      shellCmds (runNew env a).1 = [] ∧
      (env.pathExists a.name = false →
        (runNew env a).1 = [Event.println "Error: Invalid file extension"]) := by
  refine ⟨by decide, by decide, by decide, by decide, ?_⟩
  intro env a h
  by_cases hpe : env.pathExists a.name <;>
    simp [runNew, hpe, h, createdDirs, writtenFiles, shellCmds]

/-- Witness for C2 at token `rs` (rejected) in the empty environment. -/
theorem resolve_case_insensitive_reject_pure_w :
    resolveFileExtension "rs" = none ∧
    (runNew envOk { demoCppArgs with file_ext := "rs" }).1 =
      [Event.println "Error: Invalid file extension"] :=
  ⟨by decide,
   ((resolve_case_insensitive_reject_pure.2.2.2.2 envOk
      { demoCppArgs with file_ext := "rs" } (by decide)).2.2.2 (by decide))⟩

set_option maxRecDepth 80000 in
/-- Claim C1: `new --name demo` with the default extension `cpp` and
default directories, on a fresh path with every external step succeeding,
creates exactly the directories `demo/src`, `demo/include`, `demo/build`,
`demo/bin`, and writes exactly `.gitignore`, a `CMakeLists.txt` whose
content contains `CMAKE_CXX_STANDARD 23`, and a `demo/src/main.cpp` whose
content contains `#include <iostream>` and the `Hello, world!` print
statement. -/
theorem new_demo_cpp_scaffold (env : Env)
    (hex : env.pathExists "demo" = false)
    (hok : ∀ c, env.shellExit c = 0) :
    createdDirs (runNew env demoCppArgs).1 =
      ["demo/src", "demo/include", "demo/build", "demo/bin"] ∧
    writtenFiles (runNew env demoCppArgs).1 =
      [(gitignorePath demoCppArgs, ignoreFileContent),
       (cmakeListsPath demoCppArgs,
         cmakeListsContent demoCppArgs FileExtensions.Cpp),
       (mainFilePath demoCppArgs FileExtensions.Cpp,
         mainFileContent FileExtensions.Cpp)] ∧
    gitignorePath demoCppArgs = "./demo/.gitignore" ∧
    cmakeListsPath demoCppArgs = "./demo/CMakeLists.txt" ∧
    mainFilePath demoCppArgs FileExtensions.Cpp = "./demo/src/main.cpp" ∧
    "CMAKE_CXX_STANDARD 23".data <:+:
      (cmakeListsContent demoCppArgs FileExtensions.Cpp).data ∧
    "#include <iostream>".data <:+: (mainFileContent FileExtensions.Cpp).data ∧
    "std::cout << \"Hello, world!\" << std::endl;".data <:+:
      (mainFileContent FileExtensions.Cpp).data := by
  have hres : resolveFileExtension "cpp" = some FileExtensions.Cpp := by decide
  refine ⟨?_, ?_, by decide, by decide, by decide, by decide, by decide,
    by decide⟩
  · simp [runNew, hex, hres, shellStep, hok, createdDirs, demoCppArgs]
  · simp [runNew, hex, hres, shellStep, hok, writtenFiles, demoCppArgs]

/-- Witness for C1 in the environment where nothing exists and every tool
succeeds. -/
theorem new_demo_cpp_scaffold_w :
    envOk.pathExists "demo" = false ∧
    createdDirs (runNew envOk demoCppArgs).1 =
      ["demo/src", "demo/include", "demo/build", "demo/bin"] :=
  ⟨by decide, (new_demo_cpp_scaffold envOk (by decide) (fun _ => rfl)).1⟩

/-- Claim C6: when the `cmake` configure step of `new` exits non-zero, the
configure command is the only shell command ever run — in particular none
of the `git init`, `git add`, `git commit` steps is invoked. -/
theorem new_cmake_failure_stops_chain (env : Env) (a : NewArgs)
    (ext : FileExtensions)
    (hex : env.pathExists a.name = false)
    (hres : resolveFileExtension a.file_ext = some ext)
    (hfail : env.shellExit (cmakeConfigureCmd a) ≠ 0) :
    shellCmds (runNew env a).1 = [cmakeConfigureCmd a] ∧
    Event.execShell (gitInitCmd a) ∉ (runNew env a).1 ∧
    Event.execShell (gitAddCmd a) ∉ (runNew env a).1 ∧
    Event.execShell (gitCommitCmd a) ∉ (runNew env a).1 := by
  have h1 : shellCmds (runNew env a).1 = [cmakeConfigureCmd a] := by
    simp [runNew, hex, hres, shellStep, shellCmds, hfail]
  refine ⟨h1, ?_, ?_, ?_⟩ <;> intro hmem
  · have h2 := mem_shellCmds hmem
    rw [h1] at h2
    simp at h2
    exact gitInit_ne_cmake a h2
  · have h2 := mem_shellCmds hmem
    rw [h1] at h2
    simp at h2
    exact gitAdd_ne_cmake a h2
  · have h2 := mem_shellCmds hmem
    rw [h1] at h2
    simp at h2
    exact gitCommit_ne_cmake a h2

/-- Witness for C6 in the environment whose `cmake` configure step for
`demo` exits with status 1. -/
theorem new_cmake_failure_stops_chain_w :
    envCmakeFail.shellExit (cmakeConfigureCmd demoCppArgs) = 1 ∧
    shellCmds (runNew envCmakeFail demoCppArgs).1 =
      [cmakeConfigureCmd demoCppArgs] :=
  ⟨by decide,
   (new_cmake_failure_stops_chain envCmakeFail demoCppArgs
     FileExtensions.Cpp (by decide) (by decide) (by decide)).1⟩

set_option maxRecDepth 80000 in
/-- Counterexample to claim C5 as stated: the `.gitignore` written for the
default `demo` project (build directory `build`, executable directory
`bin`) is the fixed artifact-pattern literal, which contains neither the
string `build` nor the string `bin`. -/
theorem gitignore_not_parameterized :
    Event.writeFile "./demo/.gitignore" ignoreFileContent ∈
      (runNew envOk demoCppArgs).1 ∧
    demoCppArgs.build_dir = "build" ∧
    demoCppArgs.exec_dir = "bin" ∧
    ¬ ("build".data <:+: ignoreFileContent.data) ∧
    ¬ ("bin".data <:+: ignoreFileContent.data) := by decide

/-- Claim C5 (amended): every successful `new` writes `.gitignore` with
one fixed literal content, independent of the configured build and
executable directory names; that content lists the compiled-artifact
patterns and nothing derived from the layout. -/
theorem gitignore_fixed_content (env : Env) (a : NewArgs)
    (ext : FileExtensions)
    (hex : env.pathExists a.name = false)
    (hres : resolveFileExtension a.file_ext = some ext) :
    Event.writeFile (gitignorePath a) ignoreFileContent ∈ (runNew env a).1 ∧
    "*.o".data <:+: ignoreFileContent.data ∧
    "*.out".data <:+: ignoreFileContent.data ∧
    "*.exe".data <:+: ignoreFileContent.data ∧
    "*.dll".data <:+: ignoreFileContent.data ∧
    "*.so".data <:+: ignoreFileContent.data ∧
    "*.dylib".data <:+: ignoreFileContent.data := by
  refine ⟨?_, by decide, by decide, by decide, by decide, by decide,
    by decide⟩
  simp [runNew, hex, hres, shellStep]

/-- Witness for the amended C5 with custom build and executable directory
names. -/
theorem gitignore_fixed_content_w :
    Event.writeFile
      (gitignorePath
        { name := "demo", file_ext := "cpp", src_dir := "src",
          include_dir := "include", build_dir := "out", exec_dir := "dist" })
      ignoreFileContent ∈
      (runNew envOk
        { name := "demo", file_ext := "cpp", src_dir := "src",
          include_dir := "include", build_dir := "out",
          exec_dir := "dist" }).1 :=
  (gitignore_fixed_content envOk
    { name := "demo", file_ext := "cpp", src_dir := "src",
      include_dir := "include", build_dir := "out", exec_dir := "dist" }
    FileExtensions.Cpp (by decide) (by decide)).1

/-- Counterexample to claim C8 as stated: the already-exists error is
printed on standard output (the trace is exactly that `println`, and no
`eprintln` occurs) and the process outcome is exit status 0, not
non-zero. -/
theorem already_exists_error_stdout_exit_zero :
    (runNew envTaken demoCppArgs).2 = 0 ∧
    (runNew envTaken demoCppArgs).1 =
      [Event.println "Error: Project already exists"] ∧
    errLines (runNew envTaken demoCppArgs).1 = [] := by decide

/-- Claim C8 (amended): every reported error — already-exists, invalid
extension, failing configure step of `new`, failing build step of `run` —
is printed as a human-readable message on standard output; nothing is ever
written to the error stream and the invocation terminates with process
exit status 0 after abandoning the remaining steps. -/
theorem errors_on_stdout_with_exit_zero (env : Env) (a : NewArgs)
    (r : RunArgs) :
    (runNew env a).2 = 0 ∧ (runRun env r).2 = 0 ∧
    errLines (runNew env a).1 = [] ∧ errLines (runRun env r).1 = [] ∧
    (env.pathExists a.name = true →
      Event.println "Error: Project already exists" ∈ (runNew env a).1) ∧
    (env.pathExists a.name = false → resolveFileExtension a.file_ext = none →
      Event.println "Error: Invalid file extension" ∈ (runNew env a).1) ∧
    (∀ ext, env.pathExists a.name = false →
      resolveFileExtension a.file_ext = some ext →
      env.shellExit (cmakeConfigureCmd a) ≠ 0 →
      Event.println "Error: Failed to initialize cmake" ∈ (runNew env a).1) ∧
    (env.shellExit ("cmake --build " ++ r.build_dir) ≠ 0 →
      Event.println "Error: Failed to build project" ∈ (runRun env r).1) := by
  refine ⟨?_, ?_, ?_, ?_, ?_, ?_, ?_, ?_⟩
  · by_cases hpe : env.pathExists a.name <;>
      rcases hre : resolveFileExtension a.file_ext with _ | ext <;>
      simp [runNew, hpe, hre]
  · simp [runRun]
  · by_cases hpe : env.pathExists a.name <;>
      rcases hre : resolveFileExtension a.file_ext with _ | ext <;>
      simp only [runNew, hpe, if_true, if_false, hre, errLines, shellStep] <;>
      try rfl
    all_goals split_ifs <;> simp
  · simp only [runRun, errLines, shellStep]
    split_ifs <;> simp
  · intro hpe
    simp [runNew, hpe]
  · intro hpe hre
    simp [runNew, hpe, hre]
  · intro ext hpe hre hfail
    simp [runNew, hpe, hre, shellStep, hfail]
  · intro hfail
    simp [runRun, shellStep, hfail]

/-- Witness for the amended C8: the already-exists rejection prints its
message on standard output and exits with status 0. -/
theorem errors_on_stdout_with_exit_zero_w :
    (runNew envTaken demoCppArgs).2 = 0 ∧
    Event.println "Error: Project already exists" ∈
      (runNew envTaken demoCppArgs).1 :=
  ⟨(errors_on_stdout_with_exit_zero envTaken demoCppArgs runDemoArgs).1,
   (errors_on_stdout_with_exit_zero envTaken demoCppArgs
     runDemoArgs).2.2.2.2.1 (by decide)⟩

set_option maxRecDepth 80000 in
/-- The C-variant build descriptor declares `CMAKE_C_STANDARD 23` for
every layout: the `set(CMAKE_{project_type}STANDARD 23)` line of the
template is literal once the variant is fixed. -/
theorem cmakeContent_c_standard_23 (a : NewArgs) :
    "CMAKE_C_STANDARD 23".data <:+:
      (cmakeListsContent a FileExtensions.C).data := by
  have h : "CMAKE_C_STANDARD 23".data <:+: (cmakeMid FileExtensions.C).data := by
    decide
  refine sub_of_chunk
    (x := (cmakeHead ++ a.name ++ " " ++ projectLang FileExtensions.C).data)
    (y := (a.include_dir ++ cmakeAfterInclude ++ a.src_dir ++ "/main." ++
      FileExtensions.display FileExtensions.C ++ cmakeAfterSource ++
      a.exec_dir ++ cmakeAfterExec ++ a.name ++ cmakeEnd).data)
    ?_ h
  simp [cmakeListsContent, String.data_append, List.append_assoc]

set_option maxRecDepth 80000 in
/-- Counterexample to claim C4 as stated: the build descriptor generated
for `new --name demo --file-ext c` does not contain
`CMAKE_C_STANDARD 17`; it contains `CMAKE_C_STANDARD 23`. -/
theorem cmake_c_descriptor_not_17 :
    Event.writeFile "./demo/CMakeLists.txt"
      (cmakeListsContent demoCArgs FileExtensions.C) ∈
      (runNew envOk demoCArgs).1 ∧
    ¬ ("CMAKE_C_STANDARD 17".data <:+:
      (cmakeListsContent demoCArgs FileExtensions.C).data) ∧
    "CMAKE_C_STANDARD 23".data <:+:
      (cmakeListsContent demoCArgs FileExtensions.C).data := by decide

/-- Claim C4 (amended): every successful `new` whose extension token
resolves to the C variant (any casing) writes a starter source
`./<name>/<src-dir>/main.c` containing `#include <stdio.h>` and the
`printf` greeting, and a build descriptor containing
`CMAKE_C_STANDARD 23` (the template fixes standard 23 for both
variants). -/
theorem new_c_variant_scaffold (env : Env) (a : NewArgs)
    (hex : env.pathExists a.name = false)
    (hres : resolveFileExtension a.file_ext = some FileExtensions.C) :
    Event.writeFile (mainFilePath a FileExtensions.C)
      (mainFileContent FileExtensions.C) ∈ (runNew env a).1 ∧
    "#include <stdio.h>".data <:+: (mainFileContent FileExtensions.C).data ∧
    "printf(\"Hello, world!\\n\");".data <:+:
      (mainFileContent FileExtensions.C).data ∧
    Event.writeFile (cmakeListsPath a)
      (cmakeListsContent a FileExtensions.C) ∈ (runNew env a).1 ∧
    "CMAKE_C_STANDARD 23".data <:+:
      (cmakeListsContent a FileExtensions.C).data := by
  refine ⟨?_, by decide, by decide, ?_, cmakeContent_c_standard_23 a⟩
  · simp [runNew, hex, hres, shellStep]
  · simp [runNew, hex, hres, shellStep]

/-- Witness for the amended C4 with the uppercase token `C`. -/
theorem new_c_variant_scaffold_w :
    resolveFileExtension demoCUpperArgs.file_ext = some FileExtensions.C ∧
    Event.writeFile (mainFilePath demoCUpperArgs FileExtensions.C)
      (mainFileContent FileExtensions.C) ∈
      (runNew envOk demoCUpperArgs).1 :=
  ⟨by decide,
   (new_c_variant_scaffold envOk demoCUpperArgs (by decide) (by decide)).1⟩

/-- Claim C7: the executable name the `Run` handler splices into the
launched command when `--exec-name` is absent is the raw standard output
of `basename $(pwd)` — for working directory `/tmp/demo` that is
`"demo\n"` with its trailing newline, not the final path segment
`"demo"`; the launched shell line is `cd bin && ./demo\n `. -/
theorem run_default_name_keeps_newline :
    lastSegment "/tmp/demo" = "demo" ∧
    basenameStdout "/tmp/demo" = "demo\n" ∧
    derivedExecName envTmpDemo none = "demo\n" ∧
    derivedExecName envTmpDemo none ≠ "demo" ∧
    runShellLine "bin" (derivedExecName envTmpDemo none) (joinedArgs none) =
      "cd bin && ./demo\n " ∧
    Event.execShell "cd bin && ./demo\n " ∈
      (runRun envTmpDemo runDemoArgs).1 := by decide

/-- Counterexample to claim C9 as stated: the argument lists `["a b"]`
and `["a", "b"]` are distinct, yet the `Run` handler launches the very
same shell command line for both, so an argument containing a space
cannot be passed to the executable verbatim. -/
theorem run_args_not_verbatim :
    runShellLine "bin" "demo" (joinedArgs (some ["a b"])) =
      runShellLine "bin" "demo" (joinedArgs (some ["a", "b"])) ∧
    (["a b"] : List String) ≠ ["a", "b"] ∧
    Event.execShell (runShellLine "bin" "demo" (joinedArgs (some ["a b"]))) ∈
      (runRun envOk
        { build_dir := "build", runtime_dir := "bin",
          exec_name := some "demo", args := some ["a b"] }).1 := by decide

/-- `joinArgs` computed on the underlying character lists. -/
theorem data_joinArgs (l : List String) :
    (joinArgs l).data = charJoin (l.map String.data) := by
  induction l with
  | nil => rfl
  | cons a t ih =>
    cases t with
    | nil => rfl
    | cons b t2 =>
      simp [joinArgs, charJoin, String.data_append, ih, List.append_assoc]

/-- Two concatenations agree chunkwise when the leading chunks are free of
spaces and each continuation is empty or starts with a space. -/
theorem chunk_head_eq (a1 : List Char) : ∀ (a2 s1 s2 : List Char),
    (∀ c ∈ a1, c ≠ ' ') → (∀ c ∈ a2, c ≠ ' ') →
    (s1 = [] ∨ ∃ t, s1 = ' ' :: t) → (s2 = [] ∨ ∃ t, s2 = ' ' :: t) →
    a1 ++ s1 = a2 ++ s2 → a1 = a2 ∧ s1 = s2 := by
  induction a1 with
  | nil =>
    intro a2 s1 s2 _ n2 b1 _ h
    cases a2 with
    | nil => exact ⟨rfl, h⟩
    | cons c2 t2 =>
      exfalso
      simp only [List.nil_append, List.cons_append] at h
      rcases b1 with h1 | ⟨t, h1⟩
      · rw [h1] at h
        exact List.cons_ne_nil _ _ h.symm
      · rw [h1] at h
        injection h with h3 _
        exact n2 c2 (by simp) h3.symm
  | cons c1 t1 ih =>
    intro a2 s1 s2 n1 n2 b1 b2 h
    cases a2 with
    | nil =>
      exfalso
      simp only [List.nil_append, List.cons_append] at h
      rcases b2 with h2 | ⟨t, h2⟩
      · rw [h2] at h
        exact List.cons_ne_nil _ _ h
      · rw [h2] at h
        injection h with h3 _
        exact n1 c1 (by simp) h3
    | cons c2 t2 =>
      simp only [List.cons_append] at h
      injection h with hc ht
      subst hc
      have h4 := ih t2 s1 s2 (fun c hc2 => n1 c (by simp [hc2]))
        (fun c hc2 => n2 c (by simp [hc2])) b1 b2 ht
      exact ⟨by rw [h4.1], h4.2⟩

/-- `charJoin` is injective on lists of nonempty, space-free chunks. -/
theorem charJoin_inj (L1 : List (List Char)) : ∀ (L2 : List (List Char)),
    (∀ a ∈ L1, a ≠ [] ∧ ∀ c ∈ a, c ≠ ' ') →
    (∀ a ∈ L2, a ≠ [] ∧ ∀ c ∈ a, c ≠ ' ') →
    charJoin L1 = charJoin L2 → L1 = L2 := by
  induction L1 with
  | nil =>
    intro L2 _ g2 h
    cases L2 with
    | nil => rfl
    | cons a2 r2 =>
      exfalso
      cases r2 with
      | nil => exact (g2 a2 (by simp)).1 h.symm
      | cons b2 t2 =>
        rw [show charJoin (a2 :: b2 :: t2) = a2 ++ ' ' :: charJoin (b2 :: t2)
          from rfl] at h
        rcases List.append_eq_nil.mp h.symm with ⟨_, h2⟩
        exact List.cons_ne_nil _ _ h2
  | cons a1 r1 ih =>
    intro L2 g1 g2 h
    cases L2 with
    | nil =>
      exfalso
      cases r1 with
      | nil => exact (g1 a1 (by simp)).1 h
      | cons b1 t1 =>
        rw [show charJoin (a1 :: b1 :: t1) = a1 ++ ' ' :: charJoin (b1 :: t1)
          from rfl] at h
        rcases List.append_eq_nil.mp h with ⟨_, h2⟩
        exact List.cons_ne_nil _ _ h2
    | cons a2 r2 =>
      cases r1 with
      | nil =>
        cases r2 with
        | nil =>
          rw [show charJoin [a1] = a1 from rfl,
            show charJoin [a2] = a2 from rfl] at h
          rw [h]
        | cons b2 t2 =>
          exfalso
          rw [show charJoin [a1] = a1 from rfl,
            show charJoin (a2 :: b2 :: t2) = a2 ++ ' ' :: charJoin (b2 :: t2)
              from rfl] at h
          have h4 := chunk_head_eq a1 a2 [] (' ' :: charJoin (b2 :: t2))
            (g1 a1 (by simp)).2 (g2 a2 (by simp)).2 (Or.inl rfl)
            (Or.inr ⟨_, rfl⟩) (by simpa using h)
          exact List.cons_ne_nil _ _ h4.2.symm
      | cons b1 t1 =>
        cases r2 with
        | nil =>
          exfalso
          rw [show charJoin (a1 :: b1 :: t1) = a1 ++ ' ' :: charJoin (b1 :: t1)
              from rfl,
            show charJoin [a2] = a2 from rfl] at h
          have h4 := chunk_head_eq a1 a2 (' ' :: charJoin (b1 :: t1)) []
            (g1 a1 (by simp)).2 (g2 a2 (by simp)).2 (Or.inr ⟨_, rfl⟩)
            (Or.inl rfl) (by simpa using h)
          exact List.cons_ne_nil _ _ h4.2
        | cons b2 t2 =>
          rw [show charJoin (a1 :: b1 :: t1) = a1 ++ ' ' :: charJoin (b1 :: t1)
              from rfl,
            show charJoin (a2 :: b2 :: t2) = a2 ++ ' ' :: charJoin (b2 :: t2)
              from rfl] at h
          have h4 := chunk_head_eq a1 a2 (' ' :: charJoin (b1 :: t1))
            (' ' :: charJoin (b2 :: t2))
            (g1 a1 (by simp)).2 (g2 a2 (by simp)).2 (Or.inr ⟨_, rfl⟩)
            (Or.inr ⟨_, rfl⟩) h
          have h5 : charJoin (b1 :: t1) = charJoin (b2 :: t2) := by
            have h6 := h4.2
            injection h6
          have h7 := ih (b2 :: t2) (fun x hx => g1 x (by simp [hx]))
            (fun x hx => g2 x (by simp [hx])) h5
          rw [h4.1, h7]

/-- `joinArgs` is injective on lists of nonempty, space-free argument
strings. -/
theorem joinArgs_inj (l1 l2 : List String)
    (g1 : ∀ a ∈ l1, a ≠ "" ∧ ∀ c ∈ a.data, c ≠ ' ')
    (g2 : ∀ a ∈ l2, a ≠ "" ∧ ∀ c ∈ a.data, c ≠ ' ')
    (h : joinArgs l1 = joinArgs l2) : l1 = l2 := by
  have hd := congrArg String.data h
  rw [data_joinArgs, data_joinArgs] at hd
  have hmap := charJoin_inj (l1.map String.data) (l2.map String.data)
    ?_ ?_ hd
  · exact List.map_injective_iff.mpr (fun s t hst => String.ext hst) hmap
  · intro a ha
    rcases List.mem_map.mp ha with ⟨s, hs, rfl⟩
    refine ⟨?_, (g1 s hs).2⟩
    intro hnil
    exact (g1 s hs).1 (String.ext hnil)
  · intro a ha
    rcases List.mem_map.mp ha with ⟨s, hs, rfl⟩
    refine ⟨?_, (g2 s hs).2⟩
    intro hnil
    exact (g2 s hs).1 (String.ext hnil)

/-- Claim C9 (amended): the `Run` handler splices the trailing arguments
into the launched shell command joined by single spaces, so argument
boundaries survive exactly for nonempty space-free arguments: two such
argument lists producing the same launched command line are equal. -/
theorem run_args_space_free_recoverable (d n : String) (l1 l2 : List String)
    (g1 : ∀ a ∈ l1, a ≠ "" ∧ ∀ c ∈ a.data, c ≠ ' ')
    (g2 : ∀ a ∈ l2, a ≠ "" ∧ ∀ c ∈ a.data, c ≠ ' ')
    (h : runShellLine d n (joinedArgs (some l1)) =
         runShellLine d n (joinedArgs (some l2))) : l1 = l2 := by
  apply joinArgs_inj l1 l2 g1 g2
  have hd := congrArg String.data h
  simp only [runShellLine, joinedArgs, String.data_append,
    List.append_assoc] at hd
  have h1 := List.append_cancel_left hd
  have h2 := List.append_cancel_left h1
  have h3 := List.append_cancel_left h2
  have h4 := List.append_cancel_left h3
  have h5 := List.append_cancel_left h4
  exact String.ext h5

/-- Witness for the amended C9 at a concrete space-free argument list. -/
theorem run_args_space_free_recoverable_w :
    (∀ a ∈ (["alpha", "beta"] : List String),
      a ≠ "" ∧ ∀ c ∈ a.data, c ≠ ' ') ∧
    (["alpha", "beta"] : List String) = ["alpha", "beta"] :=
  ⟨by decide,
   run_args_space_free_recoverable "bin" "demo" ["alpha", "beta"]
     ["alpha", "beta"] (by decide) (by decide) rfl⟩

end CppTools
